import Mathlib

/-!
Verification of the mev-bot detection-to-execution pipeline.

Shallow embedding of the Rust sources under `src/`:
* `src/utils/fee_calculator.rs`        — `FeeCalculator`
* `src/utils/jito_optimizer.rs`        — `JitoOptimizer`
* `src/utils/enhanced_transaction_simulator.rs` — `EnhancedTransactionSimulator`
* `src/rpc/rpc_manager.rs`             — `RpcManager.get_best_rpc`
* `src/utils/risk_controls.rs`         — `RiskManager`
* `src/utils/mev_strategies.rs`        — `MevStrategyExecutor.execute_strategy`
* `src/mempool/solana.rs`              — `SolanaMempool.analyze_and_execute_opportunity`

Modelling conventions:
* Rust `f64` amounts are modelled as exact rationals (`ℚ`); every constant in
  the modelled code is a short decimal literal, and the comparisons the claims
  depend on are exact at these magnitudes.
* `SystemTime` / `Instant` values are modelled as natural-number timestamps
  (seconds); `elapsed` becomes truncated subtraction from a start timestamp.
* Results of external calls (HTTP requests, RPC fetches, bundle submission,
  the collaborator simulation pipeline) are oracle inputs, passed in as
  explicit environment values; the modelled functions are the code that
  consumes those results.
* Log output (`Logger::...`) and human-readable `details` strings of risk
  events are not modelled (terminal/log formatting is out of scope).
-/

namespace MevBot

/-! ## Opportunity and strategy kinds
(`src/utils/enhanced_transaction_simulator.rs`, `src/utils/mev_strategies.rs`) -/

inductive OpportunityType where
  | Arbitrage
  | Frontrun
  | Sandwich
  | Liquidation
  | Other
deriving DecidableEq, Repr

inductive MevStrategyType where
  | Arbitrage
  | Sandwich
  | Frontrun
  | Backrun
  | Liquidation
  | Other
deriving DecidableEq, Repr

/-- `format!("{:?}", strategy_type)`: the Debug rendering used as HashMap key in
`RiskManager.strategy_failures`. -/
def strategyKey : MevStrategyType → String
  | .Arbitrage => "Arbitrage"
  | .Sandwich => "Sandwich"
  | .Frontrun => "Frontrun"
  | .Backrun => "Backrun"
  | .Liquidation => "Liquidation"
  | .Other => "Other"

/-- `OpportunityDetails` from `enhanced_transaction_simulator.rs`. -/
structure OpportunityDetails where
  token_a : String
  token_b : String
  trade_size : Nat
  estimated_profit : ℚ
  dex : String
  opportunity_type : OpportunityType
deriving DecidableEq, Repr

/-! ## FeeCalculator (`src/utils/fee_calculator.rs`)

The `getRecentPrioritizationFees` response is modelled by the data the parsing
code extracts from it: `fees_data["result"].as_array()` (present or not), and
for each entry `fee_entry["prioritizationFee"].as_u64()` (present or not). -/

abbrev FeesData := Option (List (Option Nat))

/-- The `fees_list` both `calculate_priority_fee` and `assess_bundle_competition`
build: every entry of the result array that carries a `prioritizationFee`. -/
def feesList (d : FeesData) : List Nat :=
  match d with
  | none => []
  | some entries => entries.filterMap id

structure FeeEstimation where
  transaction_fee : ℚ
  jito_tip : ℚ
  priority_fee : ℚ
  total_execution_cost : ℚ
  compute_unit_price : Nat
  compute_units_consumed : Nat
deriving DecidableEq, Repr

inductive CompetitionLevel where
  | Low
  | Medium
  | High
  | VeryHigh
deriving DecidableEq, Repr

/-- `FeeCalculator::calculate_priority_fee`. -/
def calculate_priority_fee (fees_data : FeesData) (opportunity_value : ℚ) : ℚ :=
  let fees_list : List ℚ := (feesList fees_data).map (fun n => (n : ℚ))
  if fees_list.isEmpty then
    0.001
  else
    let avg_fee : ℚ := fees_list.sum / (fees_list.length : ℚ)
    let multiplier : ℚ :=
      if opportunity_value > 1.0 then 1.5 else if opportunity_value > 0.1 then 1.2 else 1.0
    let priority_fee_sol := (avg_fee / 1000000000) * multiplier
    min priority_fee_sol 0.01

/-- `FeeCalculator::assess_bundle_competition`. -/
def assess_bundle_competition (fees_data : FeesData) : CompetitionLevel :=
  let fees_list : List ℚ := (feesList fees_data).map (fun n => (n : ℚ))
  if fees_list.isEmpty then
    .Low
  else
    let avg_fee : ℚ := fees_list.sum / (fees_list.length : ℚ)
    if avg_fee > 100000000 then .VeryHigh
    else if avg_fee > 50000000 then .High
    else if avg_fee > 10000000 then .Medium
    else .Low

/-- `FeeCalculator::calculate_dynamic_jito_tip`. -/
def calculate_dynamic_jito_tip (fees_data : FeesData) (opportunity_value : ℚ) : ℚ :=
  let base_tip : ℚ :=
    match assess_bundle_competition fees_data with
    | .Low => 0.0005
    | .Medium => 0.001
    | .High => 0.002
    | .VeryHigh => 0.003
  let value_multiplier : ℚ :=
    if opportunity_value > 1.0 then 1.5 else if opportunity_value > 0.5 then 1.2 else 1.0
  base_tip * value_multiplier

/-- `FeeCalculator::calculate_base_transaction_fee`. -/
def calculate_base_transaction_fee (_fees_data : FeesData) : ℚ :=
  0.000005

/-- `FeeCalculator::estimate_compute_unit_price` (`as u64` truncates; the value
is at least 100000, so truncation is the floor). -/
def estimate_compute_unit_price (fees_data : FeesData) : Nat :=
  let prices := feesList fees_data
  if prices.isEmpty then
    1000000
  else
    let avg_price : ℚ := ((prices.sum : ℚ)) / (prices.length : ℚ)
    (min (max avg_price 100000) 100000000).floor.toNat

/-- `FeeCalculator::estimate_compute_units_consumed`. -/
def estimate_compute_units_consumed : Nat := 200000

/-- `FeeCalculator::calculate_dynamic_fees`.  The fetched
`get_recent_prioritization_fees` result is the oracle input `fetch`; note the
source applies `?` to it, so a failed fetch propagates as an error. -/
def calculate_dynamic_fees (fetch : Except String FeesData) (opportunity_value : ℚ) :
    Except String FeeEstimation :=
  match fetch with
  | .error e => .error e
  | .ok recent_fees_data =>
    let priority_fee := calculate_priority_fee recent_fees_data opportunity_value
    let jito_tip := calculate_dynamic_jito_tip recent_fees_data opportunity_value
    let transaction_fee := calculate_base_transaction_fee recent_fees_data
    let compute_unit_price := estimate_compute_unit_price recent_fees_data
    let compute_units_consumed := estimate_compute_units_consumed
    let total_execution_cost := transaction_fee + priority_fee + jito_tip
    .ok {
      transaction_fee := transaction_fee
      jito_tip := jito_tip
      priority_fee := priority_fee
      total_execution_cost := total_execution_cost
      compute_unit_price := compute_unit_price
      compute_units_consumed := compute_units_consumed
    }

/-! ## JitoOptimizer (`src/utils/jito_optimizer.rs`) -/

structure TipOptimizationResult where
  optimal_tip : ℚ
  recommended_tip_account : String
  confidence : ℚ
  expected_success_rate : ℚ
deriving DecidableEq, Repr

/-- Rust `f64::clamp(lo, hi)`. -/
def clampQ (x lo hi : ℚ) : ℚ := min (max x lo) hi

/-- `JitoOptimizer::calculate_base_tip`. -/
def calculate_base_tip (opportunity_value : ℚ) : ℚ :=
  if opportunity_value > 1.0 then 0.003
  else if opportunity_value > 0.5 then 0.002
  else if opportunity_value > 0.1 then 0.0015
  else if opportunity_value > 0.01 then 0.001
  else 0.0005

/-- `JitoOptimizer::calculate_tip_confidence`. -/
def calculate_tip_confidence (opportunity_value tip_amount : ℚ) : ℚ :=
  let value_confidence : ℚ :=
    if opportunity_value > 1.0 then 0.9 else if opportunity_value > 0.1 then 0.7 else 0.5
  let tip_confidence : ℚ := min (tip_amount / 0.005) 1.0
  min (value_confidence * 0.6 + tip_confidence * 0.4) 1.0

/-- `JitoOptimizer::estimate_success_rate_from_tip`. -/
def estimate_success_rate_from_tip (tip_amount : ℚ) : ℚ :=
  if tip_amount ≥ 0.003 then 0.95
  else if tip_amount ≥ 0.0015 then 0.85
  else if tip_amount ≥ 0.001 then 0.75
  else 0.60

/-- The tip amount computed inside `JitoOptimizer::calculate_optimal_tip`:
base tip scaled by congestion and competition adjustments, clamped to
`[0.0001, 0.01]`. -/
def optimal_tip_amount (opportunity_value network_congestion competition_level : ℚ) : ℚ :=
  let base_tip := calculate_base_tip opportunity_value
  let congestion_adjustment := 1.0 + network_congestion * 0.5
  let competition_adjustment := 1.0 + competition_level * 0.8
  let final_tip := base_tip * congestion_adjustment * competition_adjustment
  clampQ final_tip 0.0001 0.01

/-- `JitoOptimizer::calculate_optimal_tip`.  The tip-account chosen by the
time-based round-robin `select_best_tip_account` is an oracle input. -/
def calculate_optimal_tip (opportunity_value network_congestion competition_level : ℚ)
    (tip_account : String) : TipOptimizationResult :=
  let optimal_tip := optimal_tip_amount opportunity_value network_congestion competition_level
  { optimal_tip := optimal_tip
    recommended_tip_account := tip_account
    confidence := calculate_tip_confidence opportunity_value optimal_tip
    expected_success_rate := estimate_success_rate_from_tip optimal_tip }

/-- `JitoOptimizer::create_tip_transaction`: the placeholder tip transaction
string (`as u64` truncates the lamports value; tips are non-negative here). -/
def create_tip_transaction (tip_amount : ℚ) (tip_account : String) : String :=
  let tip_lamports := (tip_amount * 1000000000).floor.toNat
  "tip_transaction_" ++ Nat.repr tip_lamports ++ "_to_" ++ tip_account

/-- `JitoOptimizer::prepare_bundle_for_submission`: appends the tip transaction
to the bundle (the size check only logs). -/
def prepare_bundle_for_submission (transactions : List String) (tip_amount : ℚ)
    (tip_account : String) : List String :=
  transactions ++ [create_tip_transaction tip_amount tip_account]

/-! ## EnhancedTransactionSimulator (`src/utils/enhanced_transaction_simulator.rs`)

`get_pool_size` returns `Ok(100.0)` unconditionally in the source, and
`calculate_dynamic_jito_tip` (the simulator's own) returns `Ok(0.001)`;
`estimate_transaction_fees` returns `Ok(0.003)` when the RPC fee fetch succeeds
and `Ok(0.005)` when it fails.  The only oracle the simulator needs is whether
that fetch succeeded. -/

structure SimulationResult where
  is_valid : Bool
  net_profit : ℚ
  estimated_fees : ℚ
  jito_tip : ℚ
  slippage : ℚ
  safety_margin : ℚ
  confidence_score : ℚ
deriving DecidableEq, Repr

structure OpportunityValidation where
  is_profitable : Bool
  net_profit : ℚ
  total_costs : ℚ
  simulation_results : List SimulationResult
deriving DecidableEq, Repr

/-- The per-scenario parameter record of `enhanced_transaction_simulator.rs`
(slippage tolerance and priority fee); neither field is read by
`simulate_scenario` in the source. -/
structure ScenarioParams where
  slippage_tolerance : ℚ
  priority_fee : ℚ
deriving DecidableEq, Repr

/-- Oracle inputs of one simulator run. -/
structure SimEnv where
  fee_rpc_ok : Bool
deriving DecidableEq, Repr

/-- `EnhancedTransactionSimulator::new` field `safety_margin`. -/
def sim_safety_margin : ℚ := 0.005

/-- `EnhancedTransactionSimulator::new` field `min_confidence_threshold`. -/
def min_confidence_threshold : ℚ := 0.85

/-- `EnhancedTransactionSimulator::get_pool_size` (placeholder `Ok(100.0)`). -/
def get_pool_size (_token_a _token_b : String) : ℚ := 100

/-- `EnhancedTransactionSimulator::calculate_slippage`. -/
def calculate_slippage (opportunity : OpportunityDetails) : ℚ :=
  let pool_size := get_pool_size opportunity.token_a opportunity.token_b
  let trade_amount : ℚ := (opportunity.trade_size : ℚ)
  let slippage := if pool_size > 0 then (trade_amount / pool_size) * 0.1 else 0.01
  min slippage 0.05

/-- `EnhancedTransactionSimulator::estimate_transaction_fees`. -/
def estimate_transaction_fees (env : SimEnv) : ℚ :=
  if env.fee_rpc_ok then 0.003 else 0.005

/-- `EnhancedTransactionSimulator::calculate_dynamic_jito_tip`. -/
def sim_dynamic_jito_tip : ℚ := 0.001

/-- `EnhancedTransactionSimulator::calculate_price_impact`. -/
def calculate_price_impact (opportunity : OpportunityDetails) : ℚ :=
  let pool_size := get_pool_size opportunity.token_a opportunity.token_b
  let trade_size : ℚ := (opportunity.trade_size : ℚ)
  if pool_size > 0 then (trade_size / pool_size) * 0.1 else 0.01

/-- `EnhancedTransactionSimulator::sufficient_pool_depth`. -/
def sufficient_pool_depth (opportunity : OpportunityDetails) : Bool :=
  let pool_size := get_pool_size opportunity.token_a opportunity.token_b
  pool_size ≥ (opportunity.trade_size : ℚ) * 10

/-- `EnhancedTransactionSimulator::calculate_confidence_score`. -/
def calculate_confidence_score (opportunity : OpportunityDetails)
    (net_profit slippage price_impact : ℚ) : ℚ :=
  let pool_size := get_pool_size opportunity.token_a opportunity.token_b
  let s1 : ℚ := if pool_size > 100 then 0.3 else 0.1
  let s2 : ℚ := if net_profit > 0.01 then 0.3 else if net_profit > 0 then 0.1 else 0
  let s3 : ℚ := if slippage < 0.01 then 0.2 else if slippage < 0.03 then 0.1 else 0
  let s4 : ℚ := if price_impact < 0.02 then 0.2 else if price_impact < 0.05 then 0.1 else 0
  min (s1 + s2 + s3 + s4) 1.0

/-- `EnhancedTransactionSimulator::simulate_scenario`. -/
def simulate_scenario (env : SimEnv) (opportunity : OpportunityDetails)
    (_scenario : ScenarioParams) : SimulationResult :=
  let slippage := calculate_slippage opportunity
  let estimated_fees := estimate_transaction_fees env
  let jito_tip := sim_dynamic_jito_tip
  let gross_profit := opportunity.estimated_profit
  let total_costs := estimated_fees + jito_tip + slippage + sim_safety_margin
  let net_profit := gross_profit - total_costs
  let price_impact := calculate_price_impact opportunity
  let is_valid :=
    decide (net_profit > 0) && decide (price_impact ≤ 0.03 * gross_profit) &&
      sufficient_pool_depth opportunity
  let confidence_score := calculate_confidence_score opportunity net_profit slippage price_impact
  { is_valid := is_valid
    net_profit := net_profit
    estimated_fees := estimated_fees
    jito_tip := jito_tip
    slippage := slippage
    safety_margin := sim_safety_margin
    confidence_score := confidence_score }

/-- The three scenario parameter sets of `run_simulation_variations`. -/
def simulation_scenarios : List ScenarioParams :=
  [ { slippage_tolerance := 0.01, priority_fee := 0.001 },
    { slippage_tolerance := 0.005, priority_fee := 0.0015 },
    { slippage_tolerance := 0.02, priority_fee := 0.0005 } ]

/-- `EnhancedTransactionSimulator::run_simulation_variations`. -/
def run_simulation_variations (env : SimEnv) (opportunity : OpportunityDetails) :
    List SimulationResult :=
  simulation_scenarios.map (simulate_scenario env opportunity)

/-- Rust `Iterator::max_by` on `net_profit` (`partial_cmp`, ties resolved to the
last element), applied to a non-empty list as `first.foldl`. -/
def maxByNetProfit : List SimulationResult → Option SimulationResult
  | [] => none
  | r :: rs => some (rs.foldl (fun acc x => if acc.net_profit ≤ x.net_profit then x else acc) r)

/-- `EnhancedTransactionSimulator::validate_net_profit`. -/
def validate_net_profit (simulation_results : List SimulationResult) : OpportunityValidation :=
  let best_result := maxByNetProfit (simulation_results.filter (fun r => r.is_valid))
  match best_result with
  | some result =>
    let is_profitable :=
      decide (result.net_profit > 0) && decide (result.confidence_score ≥ min_confidence_threshold)
    let total_costs :=
      result.estimated_fees + result.jito_tip + result.slippage + result.safety_margin
    { is_profitable := is_profitable
      net_profit := result.net_profit
      total_costs := total_costs
      simulation_results := simulation_results }
  | none =>
    { is_profitable := false
      net_profit := 0
      total_costs := 0
      simulation_results := simulation_results }

/-- `EnhancedTransactionSimulator::simulate_and_validate`. -/
def simulate_and_validate (env : SimEnv) (opportunity : OpportunityDetails) :
    OpportunityValidation :=
  validate_net_profit (run_simulation_variations env opportunity)

/-! ## RpcManager (`src/rpc/rpc_manager.rs`) -/

inductive RpcTaskType where
  | Read
  | Simulate
  | Execute
deriving DecidableEq, Repr

inductive RpcEndpointType where
  | Helius
  | Jito
  | Drpc
deriving DecidableEq, Repr

structure RpcHealthStatus where
  latency_ms : ℚ
  success_rate : ℚ
  is_healthy : Bool
deriving DecidableEq, Repr

structure RpcEndpoint where
  url : String
  endpoint_type : RpcEndpointType
  health : RpcHealthStatus
  weight : ℚ
deriving DecidableEq, Repr

/-- The endpoint table `RpcManager.endpoints`: a `HashMap` over the three fixed
`RpcEndpointType` keys. -/
structure EndpointTable where
  helius : Option RpcEndpoint
  jito : Option RpcEndpoint
  drpc : Option RpcEndpoint
deriving DecidableEq, Repr

/-- The ordered candidate slots `get_best_rpc` probes for a task type:
Helius, then Drpc, then Jito for reads/simulations; Jito then Drpc for
execution. -/
def candidateSlots (t : EndpointTable) : RpcTaskType → List (Option RpcEndpoint)
  | .Read => [t.helius, t.drpc, t.jito]
  | .Simulate => [t.helius, t.drpc, t.jito]
  | .Execute => [t.jito, t.drpc]

/-- The first present-and-healthy endpoint of an ordered slot list (each
`if let Some(ep) ... if ep.health.is_healthy { return Some(...) }` block of
`get_best_rpc`). -/
def pickHealthy : List (Option RpcEndpoint) → Option RpcEndpoint
  | [] => none
  | none :: rest => pickHealthy rest
  | some ep :: rest => if ep.health.is_healthy then some ep else pickHealthy rest

/-- `RpcManager::get_best_rpc`. -/
def get_best_rpc (t : EndpointTable) (task_type : RpcTaskType) : Option RpcEndpoint :=
  pickHealthy (candidateSlots t task_type)

/-! ## RiskManager (`src/utils/risk_controls.rs`) -/

inductive RiskError where
  | balanceTooLow (balance : ℚ)
  | dailySpendingLimitExceeded
  | maxConsecutiveFailures
  | lossLimitExceeded
  | strategyDisabled (strategy : String)
  | sessionTimeout
  | insufficientBalance
  | internalError (msg : String)
deriving DecidableEq, Repr

structure RiskLimits where
  global_loss_per_bundle : ℚ
  global_daily_spending_limit : ℚ
  max_consecutive_failures : Nat
  min_balance_threshold : ℚ
  max_strategy_failures : Nat
  session_timeout_minutes : Nat
deriving DecidableEq, Repr

structure BalanceTracker where
  initial_balance : ℚ
  current_balance : ℚ
  balance_history : List (Nat × ℚ)
  total_spent : ℚ
  total_earned : ℚ
deriving DecidableEq, Repr

structure StrategyFailureTracker where
  strategy_type : MevStrategyType
  failure_count : Nat
  last_failure_time : Option Nat
  is_disabled : Bool
  disabled_until : Option Nat
deriving DecidableEq, Repr

inductive RiskEventType where
  | BalanceThresholdBreached
  | DailyLimitExceeded
  | ConsecutiveFailures
  | StrategyDisabled
  | LossLimitExceeded
  | SessionTimeout
deriving DecidableEq, Repr

/-- `RiskEvent` without the human-readable `details` string (log formatting is
out of scope). -/
structure RiskEvent where
  timestamp : Nat
  event_type : RiskEventType
  value : Option ℚ
deriving DecidableEq, Repr

/-- The state held by a `RiskManager` (the contents of its `RwLock`ed fields
together with its immutable configuration). -/
structure RiskManagerState where
  limits : RiskLimits
  balance_tracker : BalanceTracker
  strategy_failures : List (String × StrategyFailureTracker)
  risk_events : List RiskEvent
  session_start_time : Nat
  global_daily_spent : ℚ
  consecutive_failure_count : Nat
  last_operation_time : Nat
deriving DecidableEq, Repr

/-- History truncation used by `update_balance` (keep the last 1000 entries). -/
def pushHistory (h : List (Nat × ℚ)) (now : Nat) (balance : ℚ) : List (Nat × ℚ) :=
  let h2 := h ++ [(now, balance)]
  if h2.length > 1000 then h2.drop (h2.length - 1000) else h2

/-- Event recording of `record_risk_event` (keep the last 1000 events). -/
def record_risk_event (s : RiskManagerState) (now : Nat) (event_type : RiskEventType)
    (value : Option ℚ) : RiskManagerState :=
  let events := s.risk_events ++ [{ timestamp := now, event_type := event_type, value := value }]
  let events := if events.length > 1000 then events.drop (events.length - 1000) else events
  { s with risk_events := events }

/-- `RiskManager::update_balance`.  The tracker mutations (current balance and
history) happen before the minimum-threshold check; `total_spent` /
`total_earned` are only updated after it.  In ℚ the `drop_percentage`
division yields 0 when `old_balance = 0` (Rust would produce inf/NaN; the
value is only stored in the risk event). -/
def update_balance (s : RiskManagerState) (now : Nat) (new_balance : ℚ) :
    RiskManagerState × Except RiskError Bool :=
  let old_balance := s.balance_tracker.current_balance
  let tracker1 :=
    { s.balance_tracker with
      current_balance := new_balance
      balance_history := pushHistory s.balance_tracker.balance_history now new_balance }
  let s1 := { s with balance_tracker := tracker1 }
  if new_balance < s.limits.min_balance_threshold then
    let drop_percentage := (old_balance - new_balance) / old_balance
    (record_risk_event s1 now .BalanceThresholdBreached (some drop_percentage),
      .error (.balanceTooLow new_balance))
  else if new_balance < old_balance then
    ({ s1 with balance_tracker :=
        { tracker1 with total_spent := tracker1.total_spent + (old_balance - new_balance) } },
      .ok true)
  else
    ({ s1 with balance_tracker :=
        { tracker1 with total_earned := tracker1.total_earned + (new_balance - old_balance) } },
      .ok true)

/-- `RiskManager::should_allow_operation` (read-only checks; the risk events it
records on the failing branches are immaterial to the verdict and omitted
here). -/
def should_allow_operation (s : RiskManagerState) (now : Nat)
    (_expected_profit costs : ℚ) : Except RiskError Unit :=
  if s.limits.session_timeout_minutes > 0 ∧
      now - s.session_start_time > s.limits.session_timeout_minutes * 60 then
    .error .sessionTimeout
  else if s.global_daily_spent + costs > s.limits.global_daily_spending_limit then
    .error .dailySpendingLimitExceeded
  else if s.balance_tracker.current_balance < costs then
    .error .insufficientBalance
  else if s.limits.max_consecutive_failures ≤ s.consecutive_failure_count then
    .error .maxConsecutiveFailures
  else
    .ok ()

/-- Lookup in the `strategy_failures` HashMap (modelled as an association
list). -/
def lookupTracker (m : List (String × StrategyFailureTracker)) (k : String) :
    Option StrategyFailureTracker :=
  (m.find? (fun p => p.1 == k)).map Prod.snd

/-- Insert-or-overwrite in the `strategy_failures` map. -/
def setTracker (m : List (String × StrategyFailureTracker)) (k : String)
    (t : StrategyFailureTracker) : List (String × StrategyFailureTracker) :=
  if (m.find? (fun p => p.1 == k)).isSome then
    m.map (fun p => if p.1 == k then (k, t) else p)
  else
    m ++ [(k, t)]

/-- `RiskManager::should_allow_strategy`.  Besides a verdict it can mutate the
map: when a disabled strategy's `disabled_until` timestamp has passed it is
re-enabled in place (clearing `is_disabled` and `disabled_until`; the failure
count is not touched on this path). -/
def should_allow_strategy (s : RiskManagerState) (now : Nat) (strategy_type : MevStrategyType)
    (expected_profit costs : ℚ) : RiskManagerState × Except RiskError Unit :=
  match should_allow_operation s now expected_profit costs with
  | .error e => (s, .error e)
  | .ok _ =>
    let strategy_key := strategyKey strategy_type
    match lookupTracker s.strategy_failures strategy_key with
    | none => (s, .ok ())
    | some tracker =>
      if tracker.is_disabled then
        match tracker.disabled_until with
        | some disabled_until =>
          if now < disabled_until then
            (s, .error (.strategyDisabled strategy_key))
          else
            let reenabled := { tracker with is_disabled := false, disabled_until := none }
            ({ s with strategy_failures :=
                setTracker s.strategy_failures strategy_key reenabled }, .ok ())
        | none => (s, .error (.strategyDisabled strategy_key))
      else
        (s, .ok ())

/-- `RiskManager::record_successful_operation`. -/
def record_successful_operation (s : RiskManagerState) (now : Nat) (profit : ℚ) :
    RiskManagerState :=
  let s1 := { s with consecutive_failure_count := 0 }
  let s2 :=
    if profit < 0 then { s1 with global_daily_spent := s1.global_daily_spent + |profit| }
    else s1
  { s2 with last_operation_time := now }

/-- `RiskManager::record_failed_operation`. -/
def record_failed_operation (s : RiskManagerState) (now : Nat) :
    RiskManagerState × Except RiskError Unit :=
  let failure_count := s.consecutive_failure_count + 1
  let s1 := { s with consecutive_failure_count := failure_count }
  if s.limits.max_consecutive_failures ≤ failure_count then
    (record_risk_event s1 now .ConsecutiveFailures (some (failure_count : ℚ)),
      .error .maxConsecutiveFailures)
  else
    (s1, .ok ())

/-- `RiskManager::record_strategy_failure` (strategies are disabled for 3600
seconds once the per-strategy failure ceiling is reached). -/
def record_strategy_failure (s : RiskManagerState) (now : Nat)
    (strategy_type : MevStrategyType) : RiskManagerState :=
  let strategy_key := strategyKey strategy_type
  let tracker0 := (lookupTracker s.strategy_failures strategy_key).getD
    { strategy_type := strategy_type, failure_count := 0, last_failure_time := none,
      is_disabled := false, disabled_until := none }
  let tracker1 :=
    { tracker0 with failure_count := tracker0.failure_count + 1, last_failure_time := some now }
  if s.limits.max_strategy_failures ≤ tracker1.failure_count ∧ tracker1.is_disabled = false then
    let tracker2 := { tracker1 with is_disabled := true, disabled_until := some (now + 3600) }
    let s1 := { s with strategy_failures := setTracker s.strategy_failures strategy_key tracker2 }
    record_risk_event s1 now .StrategyDisabled (some (tracker2.failure_count : ℚ))
  else
    { s with strategy_failures := setTracker s.strategy_failures strategy_key tracker1 }

/-- `RiskManager::enable_strategy` (manual operator override; resets the
failure count). -/
def enable_strategy (s : RiskManagerState) (strategy_type : MevStrategyType) :
    RiskManagerState :=
  let strategy_key := strategyKey strategy_type
  match lookupTracker s.strategy_failures strategy_key with
  | none => s
  | some tracker =>
    let reenabled :=
      { tracker with is_disabled := false, disabled_until := none, failure_count := 0 }
    { s with strategy_failures := setTracker s.strategy_failures strategy_key reenabled }

/-! ## Runs of admitted attempts (for the daily-spend invariant)

An *attempt* at time `now` with expected profit `p` and cost `c` first asks
`should_allow_operation`; when admitted, its cost is counted into the daily
accumulator when its outcome is recorded (`record_successful_operation` adds
`|profit|` to `global_daily_spent` for a negative recorded profit, so an
admitted attempt whose cost is spent records `-c`). -/

def attemptStep (s : RiskManagerState) (now : Nat) (expected_profit cost : ℚ) :
    RiskManagerState × Bool :=
  match should_allow_operation s now expected_profit cost with
  | .ok _ => (record_successful_operation s now (-cost), true)
  | .error _ => (s, false)

/-- Run a list of attempts `(now, expected_profit, cost)`; returns the final
state and the costs of the admitted attempts, in order. -/
def runAttempts : RiskManagerState → List (Nat × ℚ × ℚ) → RiskManagerState × List ℚ
  | s, [] => (s, [])
  | s, (now, p, c) :: rest =>
    let step := attemptStep s now p c
    let tail := runAttempts step.1 rest
    (tail.1, if step.2 then c :: tail.2 else tail.2)

/-! ## MevStrategyExecutor (`src/utils/mev_strategies.rs`)

The executor is modelled as an event-trace producer so that the claims about
what precedes a bundle submission can be stated: every call the modelled code
makes to `RiskManager::should_allow_strategy` / `should_allow_operation` would
be a `riskCheck` event, and every `jito_client.send_bundle` call is a
`bundleSubmit` event carrying the submitted bundle.  External call results
(the collaborator simulation pipeline's verdict, swap routes, the RPC fee
fetch, the Jito client and its submission outcome) are oracle inputs in
`StrategyEnv`.  The tip-history bookkeeping (`record_tip_result`) only feeds
the optimizer's log and is not modelled. -/

inductive PipelineEvent where
  | riskCheck (strategy : MevStrategyType) (allowed : Bool)
  | bundleSubmit (transactions : List String) (tip : ℚ)
deriving DecidableEq, Repr

def isRiskCheck : PipelineEvent → Bool
  | .riskCheck _ _ => true
  | _ => false

def isBundleSubmit : PipelineEvent → Bool
  | .bundleSubmit _ _ => true
  | _ => false

structure MevStrategyResult where
  success : Bool
  profit : ℚ
  fees_paid : ℚ
  tip_paid : ℚ
  execution_time_ms : Nat
  strategy_type : MevStrategyType
deriving DecidableEq, Repr

/-- `MevStrategyExecutor::new` field `min_arbitrage_profit`. -/
def min_arbitrage_profit : ℚ := 0.005

/-- `MevStrategyExecutor::new` field `min_sandwich_profit`. -/
def min_sandwich_profit : ℚ := 0.01

/-- `MevStrategyExecutor::assess_network_congestion` (source returns 0.5). -/
def assess_network_congestion : ℚ := 0.5

/-- `MevStrategyExecutor::assess_competition_level` (source returns 0.6). -/
def assess_competition_level : ℚ := 0.6

/-- `MevStrategyExecutor::extract_target_trade_size` (source returns the
placeholder 1,000,000 lamports). -/
def extract_target_trade_size : Nat := 1000000

/-- Oracle inputs of one `execute_strategy` call. -/
structure StrategyEnv where
  sim_is_profitable : Bool
  tip_account : String
  fee_fetch : Except String FeesData
  route1 : Except String (Option Nat)
  route2 : Except String (Option Nat)
  jito_client_available : Bool
  send_bundle : Except String String
  execution_time_ms : Nat
deriving Repr

/-- `MevStrategyExecutor::create_swap_transaction` (placeholder string). -/
def create_swap_transaction (input_token output_token : String) (amount : Nat) : String :=
  "swap_" ++ input_token ++ "_to_" ++ output_token ++ "_" ++ Nat.repr amount

/-- `MevStrategyExecutor::create_frontrun_transaction` (placeholder string). -/
def create_frontrun_transaction (input_token output_token : String) (trade_size : Nat) : String :=
  "frontrun_" ++ input_token ++ "_to_" ++ output_token ++ "_" ++ Nat.repr trade_size

/-- `MevStrategyExecutor::create_backrun_transaction` (placeholder string). -/
def create_backrun_transaction (input_token output_token : String) (trade_size : Nat) : String :=
  "backrun_" ++ input_token ++ "_to_" ++ output_token ++ "_" ++ Nat.repr trade_size

/-- `MevStrategyExecutor::create_generic_transaction`. -/
def create_generic_transaction (opportunity : OpportunityDetails) : String :=
  match opportunity.opportunity_type with
  | .Liquidation => "liquidation_" ++ opportunity.token_a ++ "_" ++ opportunity.token_b
  | _ => create_swap_transaction opportunity.token_a opportunity.token_b opportunity.trade_size

/-- `MevStrategyExecutor::create_arbitrage_bundle`; the two
`get_best_swap_route` results are oracle inputs (`input_amount` of each
quote). -/
def create_arbitrage_bundle (env : StrategyEnv) (token_a token_b : String) :
    Except String (List String) :=
  match env.route1 with
  | .error e => .error e
  | .ok dex1_route =>
    match env.route2 with
    | .error e => .error e
    | .ok dex2_route =>
      match dex1_route, dex2_route with
      | some amount1, some amount2 =>
        .ok [create_swap_transaction token_a token_b amount1,
             create_swap_transaction token_b token_a amount2]
      | _, _ => .ok []

/-- `MevStrategyExecutor::create_sandwich_bundle` (frontrun and backrun around
the target, which the block builder inserts). -/
def create_sandwich_bundle (token_a token_b : String) (trade_size : Nat) : List String :=
  [create_frontrun_transaction token_a token_b trade_size,
   create_backrun_transaction token_b token_a trade_size]

/-- `MevStrategyExecutor::submit_via_jito`: prepares the bundle (appending the
tip transaction) and, when a Jito client is available, sends it — the
`bundleSubmit` event. -/
def submit_via_jito (env : StrategyEnv) (transactions : List String)
    (tip_result : TipOptimizationResult) : (Except String String) × List PipelineEvent :=
  let bundle_transactions := prepare_bundle_for_submission transactions
    tip_result.optimal_tip tip_result.recommended_tip_account
  if env.jito_client_available then
    (env.send_bundle, [.bundleSubmit bundle_transactions tip_result.optimal_tip])
  else
    (.error "Could not create Jito client", [])

/-- `MevStrategyExecutor::execute_arbitrage_strategy`. -/
def execute_arbitrage_strategy (env : StrategyEnv) (opportunity : OpportunityDetails) :
    Except String (MevStrategyResult × List PipelineEvent) :=
  if env.sim_is_profitable = false then
    .ok ({ success := false, profit := 0, fees_paid := 0, tip_paid := 0,
           execution_time_ms := 0, strategy_type := .Arbitrage }, [])
  else
    let tip_result := calculate_optimal_tip opportunity.estimated_profit
      assess_network_congestion assess_competition_level env.tip_account
    match calculate_dynamic_fees env.fee_fetch opportunity.estimated_profit with
    | .error e => .error e
    | .ok fee_estimation =>
      let total_costs := fee_estimation.total_execution_cost + tip_result.optimal_tip
      let net_profit := opportunity.estimated_profit - total_costs
      if net_profit < min_arbitrage_profit then
        .ok ({ success := false, profit := 0,
               fees_paid := total_costs - tip_result.optimal_tip,
               tip_paid := tip_result.optimal_tip, execution_time_ms := 0,
               strategy_type := .Arbitrage }, [])
      else
        match create_arbitrage_bundle env opportunity.token_a opportunity.token_b with
        | .error e => .error e
        | .ok arbitrage_transactions =>
          let submission := submit_via_jito env arbitrage_transactions tip_result
          match submission.1 with
          | .ok _signature =>
            .ok ({ success := true, profit := net_profit,
                   fees_paid := fee_estimation.total_execution_cost - tip_result.optimal_tip,
                   tip_paid := tip_result.optimal_tip, execution_time_ms := 0,
                   strategy_type := .Arbitrage }, submission.2)
          | .error _ =>
            .ok ({ success := false, profit := 0,
                   fees_paid := fee_estimation.total_execution_cost - tip_result.optimal_tip,
                   tip_paid := tip_result.optimal_tip, execution_time_ms := 0,
                   strategy_type := .Arbitrage }, submission.2)

/-- `MevStrategyExecutor::execute_sandwich_strategy` (the target transaction's
JSON content is never inspected by the modelled paths, so it is `Unit`). -/
def execute_sandwich_strategy (env : StrategyEnv) (opportunity : OpportunityDetails)
    (target_tx_details : Option Unit) :
    Except String (MevStrategyResult × List PipelineEvent) :=
  if target_tx_details.isNone then
    .ok ({ success := false, profit := 0, fees_paid := 0, tip_paid := 0,
           execution_time_ms := 0, strategy_type := .Sandwich }, [])
  else if env.sim_is_profitable = false then
    .ok ({ success := false, profit := 0, fees_paid := 0, tip_paid := 0,
           execution_time_ms := 0, strategy_type := .Sandwich }, [])
  else
    let tip_result := calculate_optimal_tip opportunity.estimated_profit
      assess_network_congestion assess_competition_level env.tip_account
    match calculate_dynamic_fees env.fee_fetch opportunity.estimated_profit with
    | .error e => .error e
    | .ok fee_estimation =>
      let total_costs := fee_estimation.total_execution_cost + tip_result.optimal_tip
      let net_profit := opportunity.estimated_profit - total_costs
      if net_profit < min_sandwich_profit then
        .ok ({ success := false, profit := 0,
               fees_paid := total_costs - tip_result.optimal_tip,
               tip_paid := tip_result.optimal_tip, execution_time_ms := 0,
               strategy_type := .Sandwich }, [])
      else
        let sandwich_transactions :=
          create_sandwich_bundle opportunity.token_a opportunity.token_b opportunity.trade_size
        let submission := submit_via_jito env sandwich_transactions tip_result
        match submission.1 with
        | .ok _signature =>
          .ok ({ success := true, profit := net_profit,
                 fees_paid := fee_estimation.total_execution_cost - tip_result.optimal_tip,
                 tip_paid := tip_result.optimal_tip, execution_time_ms := 0,
                 strategy_type := .Sandwich }, submission.2)
        | .error _ =>
          .ok ({ success := false, profit := 0,
                 fees_paid := fee_estimation.total_execution_cost - tip_result.optimal_tip,
                 tip_paid := tip_result.optimal_tip, execution_time_ms := 0,
                 strategy_type := .Sandwich }, submission.2)

/-- `MevStrategyExecutor::execute_frontrun_strategy`. -/
def execute_frontrun_strategy (env : StrategyEnv) (opportunity : OpportunityDetails)
    (target_tx_details : Option Unit) :
    Except String (MevStrategyResult × List PipelineEvent) :=
  let target_trade_size :=
    if target_tx_details.isSome then extract_target_trade_size else opportunity.trade_size
  if env.sim_is_profitable = false then
    .ok ({ success := false, profit := 0, fees_paid := 0, tip_paid := 0,
           execution_time_ms := 0, strategy_type := .Frontrun }, [])
  else
    let tip_result := calculate_optimal_tip opportunity.estimated_profit
      assess_network_congestion assess_competition_level env.tip_account
    match calculate_dynamic_fees env.fee_fetch opportunity.estimated_profit with
    | .error e => .error e
    | .ok fee_estimation =>
      let total_costs := fee_estimation.total_execution_cost + tip_result.optimal_tip
      let net_profit := opportunity.estimated_profit - total_costs
      if net_profit < min_arbitrage_profit then
        .ok ({ success := false, profit := 0,
               fees_paid := total_costs - tip_result.optimal_tip,
               tip_paid := tip_result.optimal_tip, execution_time_ms := 0,
               strategy_type := .Frontrun }, [])
      else
        let frontrun_transaction := create_frontrun_transaction opportunity.token_a
          opportunity.token_b target_trade_size
        let submission := submit_via_jito env [frontrun_transaction] tip_result
        match submission.1 with
        | .ok _signature =>
          .ok ({ success := true, profit := net_profit,
                 fees_paid := fee_estimation.total_execution_cost - tip_result.optimal_tip,
                 tip_paid := tip_result.optimal_tip, execution_time_ms := 0,
                 strategy_type := .Frontrun }, submission.2)
        | .error _ =>
          .ok ({ success := false, profit := 0,
                 fees_paid := fee_estimation.total_execution_cost - tip_result.optimal_tip,
                 tip_paid := tip_result.optimal_tip, execution_time_ms := 0,
                 strategy_type := .Frontrun }, submission.2)

/-- `MevStrategyExecutor::execute_generic_strategy` (note: the source has no
minimum-net-profit check on this path). -/
def execute_generic_strategy (env : StrategyEnv) (opportunity : OpportunityDetails)
    (_target_tx_details : Option Unit) :
    Except String (MevStrategyResult × List PipelineEvent) :=
  if env.sim_is_profitable = false then
    .ok ({ success := false, profit := 0, fees_paid := 0, tip_paid := 0,
           execution_time_ms := 0, strategy_type := .Other }, [])
  else
    let tip_result := calculate_optimal_tip opportunity.estimated_profit
      assess_network_congestion assess_competition_level env.tip_account
    match calculate_dynamic_fees env.fee_fetch opportunity.estimated_profit with
    | .error e => .error e
    | .ok fee_estimation =>
      let total_costs := fee_estimation.total_execution_cost + tip_result.optimal_tip
      let net_profit := opportunity.estimated_profit - total_costs
      let transaction := create_generic_transaction opportunity
      let submission := submit_via_jito env [transaction] tip_result
      match submission.1 with
      | .ok _signature =>
        .ok ({ success := true, profit := net_profit,
               fees_paid := fee_estimation.total_execution_cost - tip_result.optimal_tip,
               tip_paid := tip_result.optimal_tip, execution_time_ms := 0,
               strategy_type := .Other }, submission.2)
      | .error _ =>
        .ok ({ success := false, profit := 0,
               fees_paid := fee_estimation.total_execution_cost - tip_result.optimal_tip,
               tip_paid := tip_result.optimal_tip, execution_time_ms := 0,
               strategy_type := .Other }, submission.2)

/-- `MevStrategyExecutor::execute_strategy`: dispatch on the opportunity type,
then stamp the measured execution time onto the branch result. -/
def execute_strategy (env : StrategyEnv) (opportunity : OpportunityDetails)
    (target_tx_details : Option Unit) :
    Except String (MevStrategyResult × List PipelineEvent) :=
  let branch :=
    match opportunity.opportunity_type with
    | .Arbitrage => execute_arbitrage_strategy env opportunity
    | .Sandwich => execute_sandwich_strategy env opportunity target_tx_details
    | .Frontrun => execute_frontrun_strategy env opportunity target_tx_details
    | _ => execute_generic_strategy env opportunity target_tx_details
  match branch with
  | .error e => .error e
  | .ok (result, events) =>
    .ok ({ result with execution_time_ms := env.execution_time_ms }, events)

/-! ## SolanaMempool.analyze_and_execute_opportunity (`src/mempool/solana.rs`)

The detection-to-execution pipeline for one observed transaction.  Oracle
inputs: whether the new architecture is initialized, the target-transaction
fetch outcome, the evaluator's classification, the simulator's RPC
environment, the false-positive reducer's verdict and the strategy
executor's environment.  The metrics recording at the end has no effect on
the trace. -/

structure MempoolEnv where
  arch_initialized : Bool
  tx_fetch : Except String Unit
  evaluated : Option OpportunityDetails
  sim_env : SimEnv
  fpr_should_execute : Bool
  strategy_env : StrategyEnv
deriving Repr

/-- `SolanaMempool::analyze_and_execute_opportunity`, as the strategy result it
records (if any) and the trace of risk-check and bundle-submission events the
run produces. -/
def analyze_and_execute_opportunity (env : MempoolEnv) :
    Option MevStrategyResult × List PipelineEvent :=
  if env.arch_initialized = false then (none, [])
  else
    match env.tx_fetch with
    | .error _ => (none, [])
    | .ok target_tx_details =>
      match env.evaluated with
      | none => (none, [])
      | some opportunity =>
        let _simulation_result := simulate_and_validate env.sim_env opportunity
        if env.fpr_should_execute = false then (none, [])
        else
          match execute_strategy env.strategy_env opportunity (some target_tx_details) with
          | .error _ => (none, [])
          | .ok (strategy_result, events) => (some strategy_result, events)

/-! ## Concrete fixtures used by witnesses and counterexamples -/

/-- The default risk limits of `RiskManager::new` (no environment overrides):
loss 0.01, daily limit 10.0, 5 consecutive failures, balance floor 0.5,
3 strategy failures, no session timeout. -/
def testLimits : RiskLimits :=
  { global_loss_per_bundle := 0.01
    global_daily_spending_limit := 10
    max_consecutive_failures := 5
    min_balance_threshold := 0.5
    max_strategy_failures := 3
    session_timeout_minutes := 0 }

/-- A freshly initialized manager with a 1 SOL balance. -/
def testState : RiskManagerState :=
  { limits := testLimits
    balance_tracker :=
      { initial_balance := 1
        current_balance := 1
        balance_history := []
        total_spent := 0
        total_earned := 0 }
    strategy_failures := []
    risk_events := []
    session_start_time := 0
    global_daily_spent := 0
    consecutive_failure_count := 0
    last_operation_time := 0 }

/-- `testState` after three recorded Sandwich failures (at times 10, 11, 12):
the third reaches `max_strategy_failures = 3`, disabling Sandwich until
12 + 3600 = 3612. -/
def testDisabledState : RiskManagerState :=
  record_strategy_failure
    (record_strategy_failure (record_strategy_failure testState 10 .Sandwich) 11 .Sandwich)
    12 .Sandwich

/-- Strategy-executor oracle: profitable simulation, a successful fee fetch
with no samples, both swap routes found, Jito client available, submission
succeeds. -/
def testStrategyEnv : StrategyEnv :=
  { sim_is_profitable := true
    tip_account := "TipAcc"
    fee_fetch := Except.ok none
    route1 := Except.ok (some 500)
    route2 := Except.ok (some 400)
    jito_client_available := true
    send_bundle := Except.ok "sig"
    execution_time_ms := 7 }

/-- An arbitrage opportunity with 0.1 SOL estimated profit. -/
def testArbOpp : OpportunityDetails :=
  { token_a := "SOL"
    token_b := "USDC"
    trade_size := 5
    estimated_profit := 0.1
    dex := "Raydium"
    opportunity_type := .Arbitrage }

/-- The same opportunity classified as a sandwich. -/
def testSandwichOpp : OpportunityDetails :=
  { testArbOpp with opportunity_type := .Sandwich }

/-- A full pipeline environment that reaches strategy execution. -/
def testMempoolEnv : MempoolEnv :=
  { arch_initialized := true
    tx_fetch := Except.ok ()
    evaluated := some testArbOpp
    sim_env := { fee_rpc_ok := true }
    fpr_should_execute := true
    strategy_env := testStrategyEnv }

/-- The spec's §8 example scenario as a `SimulationResult`: gross 0.02, fee
0.006, tip 0.001, slippage 0.001, margin 0.005, hence net 0.007; the
confidence score is the free parameter the spec example leaves unstated. -/
def exampleScenarioResult (confidence : ℚ) : SimulationResult :=
  { is_valid := true
    net_profit := 0.007
    estimated_fees := 0.006
    jito_tip := 0.001
    slippage := 0.001
    safety_margin := 0.005
    confidence_score := confidence }

/-- A healthy endpoint fixture. -/
def testEndpoint (ty : RpcEndpointType) (healthy : Bool) : RpcEndpoint :=
  { url := "url"
    endpoint_type := ty
    health := { latency_ms := 100, success_rate := 1, is_healthy := healthy }
    weight := 1 }

/-! ## Helper lemmas -/

lemma validate_net_profit_pos (results : List SimulationResult)
    (h : (validate_net_profit results).is_profitable = true) :
    (validate_net_profit results).net_profit > 0 := by
  unfold validate_net_profit at h ⊢
  cases hb : maxByNetProfit (results.filter fun r => r.is_valid) with
  | none => rw [hb] at h; simp at h
  | some r =>
    rw [hb] at h
    simp at h ⊢
    exact h.1

lemma pickHealthy_healthy :
    ∀ (slots : List (Option RpcEndpoint)) (ep : RpcEndpoint),
      pickHealthy slots = some ep → ep.health.is_healthy = true
  | [], ep, h => by simp [pickHealthy] at h
  | none :: rest, ep, h => pickHealthy_healthy rest ep h
  | some e :: rest, ep, h => by
    by_cases he : e.health.is_healthy
    · rw [pickHealthy, if_pos he] at h
      cases h
      exact he
    · rw [pickHealthy, if_neg he] at h
      exact pickHealthy_healthy rest ep h

lemma pickHealthy_none_iff :
    ∀ slots : List (Option RpcEndpoint),
      pickHealthy slots = none ↔
        ∀ ep : RpcEndpoint, some ep ∈ slots → ep.health.is_healthy = false
  | [] => by simp [pickHealthy]
  | none :: rest => by
    rw [pickHealthy]
    rw [pickHealthy_none_iff rest]
    constructor
    · intro h ep hmem
      rcases List.mem_cons.mp hmem with hx | hx
      · exact absurd hx (by simp)
      · exact h ep hx
    · intro h ep hmem
      exact h ep (List.mem_cons_of_mem _ hmem)
  | some e :: rest => by
    by_cases he : e.health.is_healthy
    · rw [pickHealthy, if_pos he]
      constructor
      · intro h; exact absurd h (by simp)
      · intro h
        have := h e (List.mem_cons_self _ _)
        rw [he] at this
        exact absurd this (by simp)
    · rw [pickHealthy, if_neg he]
      rw [pickHealthy_none_iff rest]
      constructor
      · intro h ep hmem
        rcases List.mem_cons.mp hmem with hx | hx
        · cases hx
          exact Bool.eq_false_iff.mpr he
        · exact h ep hx
      · intro h ep hmem
        exact h ep (List.mem_cons_of_mem _ hmem)

lemma calculate_base_tip_pos (v : ℚ) : 0 < calculate_base_tip v := by
  unfold calculate_base_tip
  split_ifs <;> norm_num

lemma clampQ_mono {x y lo hi : ℚ} (h : x ≤ y) : clampQ x lo hi ≤ clampQ y lo hi :=
  min_le_min (max_le_max h le_rfl) le_rfl

lemma clampQ_bounds {lo hi : ℚ} (x : ℚ) (hlh : lo ≤ hi) :
    lo ≤ clampQ x lo hi ∧ clampQ x lo hi ≤ hi :=
  ⟨le_min (le_max_right _ _) hlh, min_le_right _ _⟩

/-! ## Claim theorems -/

/-- C3: every simulated scenario's net profit equals gross profit minus the
sum of fee, tip, slippage and safety margin; and a validation that reports
`is_profitable` has positive net profit (both through `validate_net_profit`
on arbitrary scenario results and through `simulate_and_validate`). -/
theorem net_profit_equation_and_profitability (env : SimEnv)
    (opportunity : OpportunityDetails) (scenario : ScenarioParams) :
    (simulate_scenario env opportunity scenario).net_profit =
      opportunity.estimated_profit -
        ((simulate_scenario env opportunity scenario).estimated_fees +
          (simulate_scenario env opportunity scenario).jito_tip +
          (simulate_scenario env opportunity scenario).slippage +
          (simulate_scenario env opportunity scenario).safety_margin) ∧
    (∀ results : List SimulationResult,
      (validate_net_profit results).is_profitable = true →
        (validate_net_profit results).net_profit > 0) ∧
    ((simulate_and_validate env opportunity).is_profitable = true →
      (simulate_and_validate env opportunity).net_profit > 0) := by
  refine ⟨rfl, validate_net_profit_pos, ?_⟩
  intro h
  exact validate_net_profit_pos _ h

/-- C3 witness: the equation at a concrete scenario, and positivity for a
concrete profitable validation. -/
theorem net_profit_equation_and_profitability_witness :
    (simulate_scenario { fee_rpc_ok := true } testArbOpp
        { slippage_tolerance := 0.01, priority_fee := 0.001 }).net_profit =
      testArbOpp.estimated_profit -
        ((simulate_scenario { fee_rpc_ok := true } testArbOpp
            { slippage_tolerance := 0.01, priority_fee := 0.001 }).estimated_fees +
          (simulate_scenario { fee_rpc_ok := true } testArbOpp
            { slippage_tolerance := 0.01, priority_fee := 0.001 }).jito_tip +
          (simulate_scenario { fee_rpc_ok := true } testArbOpp
            { slippage_tolerance := 0.01, priority_fee := 0.001 }).slippage +
          (simulate_scenario { fee_rpc_ok := true } testArbOpp
            { slippage_tolerance := 0.01, priority_fee := 0.001 }).safety_margin) ∧
    (validate_net_profit [exampleScenarioResult 0.9]).net_profit > 0 :=
  ⟨(net_profit_equation_and_profitability { fee_rpc_ok := true } testArbOpp
      { slippage_tolerance := 0.01, priority_fee := 0.001 }).1,
    (net_profit_equation_and_profitability { fee_rpc_ok := true } testArbOpp
      { slippage_tolerance := 0.01, priority_fee := 0.001 }).2.1
      [exampleScenarioResult 0.9]
      (by unfold validate_net_profit maxByNetProfit exampleScenarioResult
          norm_num [List.filter, min_confidence_threshold])⟩

/-- C5 counterexample: the spec's example scenario (gross 0.02, fee 0.006,
tip 0.001, slippage 0.001, margin 0.005, net 0.007 > 0, valid) is *not*
reported profitable when its confidence score is 0.8, because
`validate_net_profit` also requires the 0.85 confidence threshold. -/
theorem example_scenario_not_profitable_at_low_confidence :
    (validate_net_profit [exampleScenarioResult 0.8]).is_profitable = false ∧
    (exampleScenarioResult 0.8).net_profit = 0.02 - (0.006 + 0.001 + 0.001 + 0.005) ∧
    (exampleScenarioResult 0.8).net_profit > 0 ∧
    (exampleScenarioResult 0.8).is_valid = true := by
  refine ⟨?_, by norm_num [exampleScenarioResult], by norm_num [exampleScenarioResult], rfl⟩
  unfold validate_net_profit maxByNetProfit exampleScenarioResult
  norm_num [List.filter, min_confidence_threshold]

/-- C5 (amended): for the spec's example scenario the validation has
`is_profitable = true` (with net profit 0.007) provided the scenario's
confidence score also meets the 0.85 threshold. -/
theorem example_scenario_profitable_with_confidence (confidence : ℚ)
    (h : min_confidence_threshold ≤ confidence) :
    (validate_net_profit [exampleScenarioResult confidence]).is_profitable = true ∧
    (validate_net_profit [exampleScenarioResult confidence]).net_profit = 0.007 := by
  unfold validate_net_profit maxByNetProfit exampleScenarioResult
  norm_num [List.filter, min_confidence_threshold]
  exact le_trans (by norm_num [min_confidence_threshold]) h

/-- C5 witness for the amended theorem, at confidence 0.9. -/
theorem example_scenario_profitable_with_confidence_witness :
    (validate_net_profit [exampleScenarioResult 0.9]).is_profitable = true ∧
    (validate_net_profit [exampleScenarioResult 0.9]).net_profit = 0.007 :=
  example_scenario_profitable_with_confidence 0.9 (by norm_num [min_confidence_threshold])

/-- C6: `get_best_rpc` returns an endpoint only if its health snapshot says
healthy, and returns `none` exactly when no endpoint in the role's candidate
list is healthy. -/
theorem get_best_rpc_health_contract (t : EndpointTable) (task_type : RpcTaskType) :
    (∀ ep : RpcEndpoint, get_best_rpc t task_type = some ep → ep.health.is_healthy = true) ∧
    (get_best_rpc t task_type = none ↔
      ∀ ep : RpcEndpoint, some ep ∈ candidateSlots t task_type →
        ep.health.is_healthy = false) := by
  constructor
  · intro ep h
    exact pickHealthy_healthy _ ep h
  · exact pickHealthy_none_iff _

/-- C6 witness: with only Jito healthy, the execute role picks Jito (a healthy
endpoint), and the read role with all candidates unhealthy returns `none`. -/
theorem get_best_rpc_health_contract_witness :
    (testEndpoint .Jito true).health.is_healthy = true ∧
    (get_best_rpc
        { helius := some (testEndpoint .Helius false)
          jito := some (testEndpoint .Jito false)
          drpc := some (testEndpoint .Drpc false) } .Read = none) :=
  ⟨(get_best_rpc_health_contract
      { helius := none, jito := some (testEndpoint .Jito true), drpc := none } .Execute).1
      (testEndpoint .Jito true) rfl,
    (get_best_rpc_health_contract
      { helius := some (testEndpoint .Helius false)
        jito := some (testEndpoint .Jito false)
        drpc := some (testEndpoint .Drpc false) } .Read).2.mpr
      (by intro ep hmem
          simp [candidateSlots] at hmem
          rcases hmem with h | h | h <;> subst h <;> rfl)⟩

/-- C7: the optimal tip is monotonically non-decreasing in congestion (with
competition fixed and non-negative) and in competition (with congestion fixed
and non-negative), and always lies in the band [0.0001, 0.01]. -/
theorem optimal_tip_monotone_and_bounded (opportunity_value c1 c2 k : ℚ)
    (hk : 0 ≤ k) (h12 : c1 ≤ c2) :
    optimal_tip_amount opportunity_value c1 k ≤ optimal_tip_amount opportunity_value c2 k ∧
    optimal_tip_amount opportunity_value k c1 ≤ optimal_tip_amount opportunity_value k c2 ∧
    0.0001 ≤ optimal_tip_amount opportunity_value c1 k ∧
    optimal_tip_amount opportunity_value c1 k ≤ 0.01 := by
  have hbase : 0 < calculate_base_tip opportunity_value := calculate_base_tip_pos _
  refine ⟨?_, ?_, ?_, ?_⟩
  · apply clampQ_mono
    have hfac : (0 : ℚ) ≤ 1.0 + k * 0.8 := by nlinarith
    have : calculate_base_tip opportunity_value * (1.0 + c1 * 0.5) ≤
        calculate_base_tip opportunity_value * (1.0 + c2 * 0.5) := by nlinarith
    exact mul_le_mul_of_nonneg_right this hfac
  · apply clampQ_mono
    have hfac : (0 : ℚ) ≤ calculate_base_tip opportunity_value * (1.0 + k * 0.5) := by nlinarith
    have : (1.0 + c1 * 0.8) ≤ (1.0 + c2 * 0.8) := by nlinarith
    exact mul_le_mul_of_nonneg_left this hfac
  · exact (clampQ_bounds _ (by norm_num)).1
  · exact (clampQ_bounds _ (by norm_num)).2

/-- C7 witness at value 0.1, congestion 0.2 ≤ 0.5, competition 0.6. -/
theorem optimal_tip_monotone_and_bounded_witness :
    optimal_tip_amount 0.1 0.2 0.6 ≤ optimal_tip_amount 0.1 0.5 0.6 ∧
    optimal_tip_amount 0.1 0.6 0.2 ≤ optimal_tip_amount 0.1 0.6 0.5 ∧
    0.0001 ≤ optimal_tip_amount 0.1 0.2 0.6 ∧
    optimal_tip_amount 0.1 0.2 0.6 ≤ 0.01 :=
  optimal_tip_monotone_and_bounded 0.1 0.2 0.5 0.6 (by norm_num) (by norm_num)

/-- C8 counterexample: when the fee-sample fetch itself fails,
`calculate_dynamic_fees` returns that error to the caller — it does not fall
back to defaults. -/
theorem dynamic_fees_error_propagates :
    calculate_dynamic_fees (Except.error "No healthy read endpoint available") 0.02 =
      Except.error "No healthy read endpoint available" ∧
    ∀ est : FeeEstimation,
      calculate_dynamic_fees (Except.error "No healthy read endpoint available") 0.02 ≠
        Except.ok est := by
  refine ⟨rfl, ?_⟩
  intro est h
  simp [calculate_dynamic_fees] at h

/-- C8 (amended): the conservative defaults apply when the fetch *succeeds*
but carries no usable samples — priority fee 0.001 and compute-unit price
1,000,000 — and the estimation then succeeds; a failed fetch propagates its
error instead. -/
theorem dynamic_fees_defaults_on_empty_samples (opportunity_value : ℚ) (d : FeesData)
    (e : String) (h : feesList d = []) :
    calculate_priority_fee d opportunity_value = 0.001 ∧
    estimate_compute_unit_price d = 1000000 ∧
    (∃ est : FeeEstimation,
      calculate_dynamic_fees (Except.ok d) opportunity_value = Except.ok est ∧
      est.priority_fee = 0.001 ∧ est.compute_unit_price = 1000000 ∧
      est.transaction_fee = 0.000005) ∧
    calculate_dynamic_fees (Except.error e) opportunity_value = Except.error e := by
  have hempty : ((feesList d).map (fun n => (n : ℚ))).isEmpty = true := by
    rw [h]; rfl
  have hp : calculate_priority_fee d opportunity_value = 0.001 := by
    unfold calculate_priority_fee
    rw [if_pos hempty]
  have hcu : estimate_compute_unit_price d = 1000000 := by
    unfold estimate_compute_unit_price
    rw [if_pos (by rw [h]; rfl)]
  refine ⟨hp, hcu, ⟨_, rfl, hp, hcu, rfl⟩, rfl⟩

/-- C8 witness: an empty successful fetch at opportunity value 0.02. -/
theorem dynamic_fees_defaults_on_empty_samples_witness :
    calculate_priority_fee none 0.02 = 0.001 ∧
    estimate_compute_unit_price none = 1000000 ∧
    (∃ est : FeeEstimation,
      calculate_dynamic_fees (Except.ok none) 0.02 = Except.ok est ∧
      est.priority_fee = 0.001 ∧ est.compute_unit_price = 1000000 ∧
      est.transaction_fee = 0.000005) ∧
    calculate_dynamic_fees (Except.error "fetch failed") 0.02 =
      Except.error "fetch failed" :=
  dynamic_fees_defaults_on_empty_samples 0.02 none "fetch failed" rfl

/-- C10: when `update_balance` rejects a balance below the minimum threshold,
the state has already been mutated — the current balance is the rejected value
and the history entry is appended — while `total_spent` and `total_earned`
stay unchanged on that error path. -/
theorem update_balance_error_not_atomic (s : RiskManagerState) (now : Nat)
    (new_balance : ℚ) (h : new_balance < s.limits.min_balance_threshold) :
    (update_balance s now new_balance).2 =
      Except.error (RiskError.balanceTooLow new_balance) ∧
    (update_balance s now new_balance).1.balance_tracker.current_balance = new_balance ∧
    (update_balance s now new_balance).1.balance_tracker.balance_history =
      pushHistory s.balance_tracker.balance_history now new_balance ∧
    (update_balance s now new_balance).1.balance_tracker.total_spent =
      s.balance_tracker.total_spent ∧
    (update_balance s now new_balance).1.balance_tracker.total_earned =
      s.balance_tracker.total_earned := by
  unfold update_balance record_risk_event
  simp [h]

/-- C10 witness: balance 0.4 below the 0.5 floor on the fresh test state. -/
theorem update_balance_error_not_atomic_witness :
    (update_balance testState 42 0.4).2 =
      Except.error (RiskError.balanceTooLow 0.4) ∧
    (update_balance testState 42 0.4).1.balance_tracker.current_balance = 0.4 ∧
    (update_balance testState 42 0.4).1.balance_tracker.balance_history =
      pushHistory testState.balance_tracker.balance_history 42 0.4 ∧
    (update_balance testState 42 0.4).1.balance_tracker.total_spent =
      testState.balance_tracker.total_spent ∧
    (update_balance testState 42 0.4).1.balance_tracker.total_earned =
      testState.balance_tracker.total_earned :=
  update_balance_error_not_atomic testState 42 0.4 (by norm_num [testState, testLimits])

/-! ## Helper lemmas for the risk-control claims -/

lemma should_allow_operation_ok_le {s : RiskManagerState} {now : Nat} {p c : ℚ}
    (h : should_allow_operation s now p c = .ok ()) :
    s.global_daily_spent + c ≤ s.limits.global_daily_spending_limit := by
  unfold should_allow_operation at h
  split_ifs at h with h1 h2 h3 h4
  all_goals first
    | exact Except.noConfusion h
    | exact le_of_not_lt h2

lemma record_successful_operation_spent (s : RiskManagerState) (now : Nat) (profit : ℚ) :
    (record_successful_operation s now profit).global_daily_spent =
      (if profit < 0 then s.global_daily_spent + |profit| else s.global_daily_spent) ∧
    (record_successful_operation s now profit).limits = s.limits := by
  unfold record_successful_operation
  split_ifs with hp <;> simp

lemma attemptStep_cases (s : RiskManagerState) (now : Nat) (p c : ℚ) (hc : 0 ≤ c) :
    ((attemptStep s now p c).2 = true ∧
      should_allow_operation s now p c = .ok () ∧
      (attemptStep s now p c).1.global_daily_spent = s.global_daily_spent + c ∧
      (attemptStep s now p c).1.limits = s.limits) ∨
    ((attemptStep s now p c).2 = false ∧ (attemptStep s now p c).1 = s) := by
  unfold attemptStep
  cases ho : should_allow_operation s now p c with
  | error e => right; exact ⟨rfl, rfl⟩
  | ok u =>
    cases u
    left
    refine ⟨rfl, rfl, ?_, (record_successful_operation_spent s now (-c)).2⟩
    show (record_successful_operation s now (-c)).global_daily_spent = _
    rw [(record_successful_operation_spent s now (-c)).1]
    rcases eq_or_lt_of_le hc with h0 | h0
    · rw [if_neg (by rw [← h0]; norm_num), ← h0, add_zero]
    · rw [if_pos (neg_lt_zero.mpr h0), abs_neg, abs_of_pos h0]

lemma runAttempts_invariant (ops : List (Nat × ℚ × ℚ)) :
    ∀ s : RiskManagerState,
      (∀ x ∈ ops, 0 ≤ x.2.2) →
      s.global_daily_spent ≤ s.limits.global_daily_spending_limit →
      (runAttempts s ops).1.limits = s.limits ∧
      (runAttempts s ops).1.global_daily_spent =
        s.global_daily_spent + ((runAttempts s ops).2).sum ∧
      (runAttempts s ops).1.global_daily_spent ≤ s.limits.global_daily_spending_limit := by
  induction ops with
  | nil =>
    intro s _ hle
    exact ⟨rfl, by simp [runAttempts], by simpa [runAttempts] using hle⟩
  | cons hd tl ih =>
    intro s hc hle
    obtain ⟨now, p, c⟩ := hd
    have hc0 : 0 ≤ c := hc _ (List.mem_cons_self _ _)
    have hctl : ∀ x ∈ tl, 0 ≤ x.2.2 := fun x hx => hc x (List.mem_cons_of_mem _ hx)
    have hrun : runAttempts s ((now, p, c) :: tl) =
        ((runAttempts (attemptStep s now p c).1 tl).1,
          if (attemptStep s now p c).2 then
            c :: (runAttempts (attemptStep s now p c).1 tl).2
          else (runAttempts (attemptStep s now p c).1 tl).2) := rfl
    rcases attemptStep_cases s now p c hc0 with ⟨hadm, hok, hsp, hlim⟩ | ⟨hden, heq⟩
    · have hle2 : (attemptStep s now p c).1.global_daily_spent ≤
          (attemptStep s now p c).1.limits.global_daily_spending_limit := by
        rw [hsp, hlim]
        exact should_allow_operation_ok_le hok
      obtain ⟨l1, l2, l3⟩ := ih (attemptStep s now p c).1 hctl hle2
      rw [hrun]
      simp only [hadm, if_true]
      rw [hlim] at l1 l3
      refine ⟨l1, ?_, l3⟩
      rw [l2, hsp, List.sum_cons]
      ring
    · rw [hrun]
      simp only [hden, Bool.false_eq_true, if_false]
      rw [heq]
      exact ih s hctl hle

lemma find_map_overwrite :
    ∀ (m : List (String × StrategyFailureTracker)) (k : String) (t : StrategyFailureTracker),
      (m.find? (fun p => p.1 == k)).isSome = true →
      lookupTracker (m.map (fun p => if p.1 == k then (k, t) else p)) k = some t
  | [], k, t, h => by simp [List.find?] at h
  | hd :: tlm, k, t, h => by
    by_cases hk : hd.1 == k
    · unfold lookupTracker
      rw [List.map_cons, if_pos hk, List.find?_cons_of_pos _ (by simp)]
      rfl
    · have hk' : ((fun p : String × StrategyFailureTracker => p.1 == k) hd) = false := by
        simpa using hk
      rw [List.find?_cons_of_neg _ (by simpa using hk)] at h
      unfold lookupTracker
      rw [List.map_cons, if_neg hk, List.find?_cons_of_neg _ (by simpa using hk)]
      exact find_map_overwrite tlm k t h

lemma lookupTracker_setTracker {m : List (String × StrategyFailureTracker)} {k : String}
    {t0 : StrategyFailureTracker} (t : StrategyFailureTracker)
    (h : lookupTracker m k = some t0) :
    lookupTracker (setTracker m k t) k = some t := by
  have hfind : (m.find? (fun p => p.1 == k)).isSome = true := by
    unfold lookupTracker at h
    cases hf : m.find? (fun p => p.1 == k) with
    | none => rw [hf] at h; simp at h
    | some v => simp
  unfold setTracker
  rw [if_pos hfind]
  exact find_map_overwrite m k t hfind

/-- The fixture `testDisabledState` spelled out: three Sandwich failures,
disabled until 3612 (all fields are finitary, so this is a computation). -/
lemma testDisabledState_failures :
    testDisabledState.strategy_failures =
      [("Sandwich",
        { strategy_type := .Sandwich, failure_count := 3, last_failure_time := some 12,
          is_disabled := true, disabled_until := some 3612 })] := rfl

lemma testDisabledState_allows_op (now : Nat) :
    should_allow_operation testDisabledState now 0.02 0.01 = Except.ok () := by
  unfold should_allow_operation
  have h1 : testDisabledState.limits.session_timeout_minutes = 0 := rfl
  have h2 : testDisabledState.global_daily_spent = 0 := rfl
  have h3 : testDisabledState.balance_tracker.current_balance = 1 := rfl
  have h4 : testDisabledState.consecutive_failure_count = 0 := rfl
  have h5 : testDisabledState.limits.global_daily_spending_limit = 10 := rfl
  have h6 : testDisabledState.limits.max_consecutive_failures = 5 := rfl
  rw [h1, h2, h3, h4, h5, h6]
  norm_num

/-! ## Risk-control claim theorems -/

/-- C2: an attempt is admitted only when the daily accumulator plus its cost
stays within the limit; along any run of attempts (each admitted attempt's
cost recorded into the accumulator at outcome time) the accumulator never
exceeds the limit, and the total cost of all admitted attempts is at most the
limit. -/
theorem daily_spending_limit_invariant (s : RiskManagerState) (ops : List (Nat × ℚ × ℚ))
    (hspent0 : s.global_daily_spent = 0)
    (hlim0 : 0 ≤ s.limits.global_daily_spending_limit)
    (hcosts : ∀ x ∈ ops, 0 ≤ x.2.2) :
    (∀ (now : Nat) (p c : ℚ), should_allow_operation s now p c = .ok () →
      s.global_daily_spent + c ≤ s.limits.global_daily_spending_limit) ∧
    (∀ pre suf : List (Nat × ℚ × ℚ), ops = pre ++ suf →
      (runAttempts s pre).1.global_daily_spent ≤ s.limits.global_daily_spending_limit) ∧
    ((runAttempts s ops).2).sum ≤ s.limits.global_daily_spending_limit := by
  have hle : s.global_daily_spent ≤ s.limits.global_daily_spending_limit := by
    rw [hspent0]; exact hlim0
  refine ⟨fun now p c h => should_allow_operation_ok_le h, ?_, ?_⟩
  · intro pre suf hps
    have hcpre : ∀ x ∈ pre, 0 ≤ x.2.2 := fun x hx =>
      hcosts x (by rw [hps]; exact List.mem_append_left _ hx)
    exact (runAttempts_invariant pre s hcpre hle).2.2
  · obtain ⟨-, h2, h3⟩ := runAttempts_invariant ops s hcosts hle
    rw [hspent0, zero_add] at h2
    rw [← h2]
    exact h3

/-- C2 witness: a two-attempt run on the fresh test state. -/
theorem daily_spending_limit_invariant_witness :
    ((runAttempts testState [(5, 0.02, 0.01), (6, 0.03, 0.02)]).2).sum ≤
      testState.limits.global_daily_spending_limit :=
  (daily_spending_limit_invariant testState [(5, 0.02, 0.01), (6, 0.03, 0.02)] rfl
    (by norm_num [testState, testLimits])
    (by intro x hx
        simp at hx
        rcases hx with h | h <;> rw [h] <;> norm_num)).2.2

/-- C9 counterexample: after the Sandwich disablement window has elapsed, the
automatic re-enable inside `should_allow_strategy` clears `is_disabled` and
`disabled_until` but leaves the failure counter at 3 — it is not reset as
part of this re-enable transition. -/
theorem auto_reenable_keeps_failure_count :
    (should_allow_strategy testDisabledState 5000 .Sandwich 0.02 0.01).2 = Except.ok () ∧
    lookupTracker
        (should_allow_strategy testDisabledState 5000 .Sandwich 0.02 0.01).1.strategy_failures
        "Sandwich" =
      some { strategy_type := .Sandwich, failure_count := 3, last_failure_time := some 12,
             is_disabled := false, disabled_until := none } := by
  have hop := testDisabledState_allows_op 5000
  unfold should_allow_strategy
  rw [hop]
  constructor <;> rfl

/-- C9 (amended): the failure counter is reset to zero by the manual operator
override `enable_strategy`; the automatic re-enable in `should_allow_strategy`
(once `disabled_until` has elapsed) clears the disabled flag and timestamp
but leaves the failure counter unchanged. -/
theorem reenable_resets_count_only_manually (s : RiskManagerState)
    (strategy_type : MevStrategyType) (tracker : StrategyFailureTracker)
    (now : Nat) (p c : ℚ) (du : Nat)
    (hlook : lookupTracker s.strategy_failures (strategyKey strategy_type) = some tracker)
    (hdis : tracker.is_disabled = true)
    (hdu : tracker.disabled_until = some du)
    (helapsed : ¬ now < du)
    (hop : should_allow_operation s now p c = Except.ok ()) :
    lookupTracker (enable_strategy s strategy_type).strategy_failures
        (strategyKey strategy_type) =
      some { tracker with is_disabled := false, disabled_until := none, failure_count := 0 } ∧
    (should_allow_strategy s now strategy_type p c).2 = Except.ok () ∧
    lookupTracker (should_allow_strategy s now strategy_type p c).1.strategy_failures
        (strategyKey strategy_type) =
      some { tracker with is_disabled := false, disabled_until := none } := by
  refine ⟨?_, ?_, ?_⟩
  · simp only [enable_strategy, hlook]
    exact lookupTracker_setTracker _ hlook
  · simp only [should_allow_strategy, hop, hlook, hdis, hdu, if_true]
    rw [if_neg helapsed]
  · simp only [should_allow_strategy, hop, hlook, hdis, hdu, if_true]
    rw [if_neg helapsed]
    exact lookupTracker_setTracker _ hlook

/-- C9 witness: the amended behavior at the concrete disabled test state
(window elapsed at time 5000). -/
theorem reenable_resets_count_only_manually_witness :
    lookupTracker (enable_strategy testDisabledState .Sandwich).strategy_failures
        (strategyKey .Sandwich) =
      some { strategy_type := .Sandwich, failure_count := 0, last_failure_time := some 12,
             is_disabled := false, disabled_until := none } ∧
    (should_allow_strategy testDisabledState 5000 .Sandwich 0.02 0.01).2 = Except.ok () ∧
    lookupTracker
        (should_allow_strategy testDisabledState 5000 .Sandwich 0.02 0.01).1.strategy_failures
        (strategyKey .Sandwich) =
      some { strategy_type := .Sandwich, failure_count := 3, last_failure_time := some 12,
             is_disabled := false, disabled_until := none } :=
  reenable_resets_count_only_manually testDisabledState .Sandwich
    { strategy_type := .Sandwich, failure_count := 3, last_failure_time := some 12,
      is_disabled := true, disabled_until := some 3612 }
    5000 0.02 0.01 3612 rfl rfl rfl (by norm_num) (testDisabledState_allows_op 5000)

/-! ## Event-trace lemmas: no code path of the strategy executor or the
mempool pipeline performs a RiskManager admission check -/

lemma submit_via_jito_no_risk (env : StrategyEnv) (txs : List String)
    (tip : TipOptimizationResult) : (submit_via_jito env txs tip).2.any isRiskCheck = false := by
  unfold submit_via_jito
  split <;> simp [isRiskCheck]

lemma execute_arbitrage_no_risk (env : StrategyEnv) (opp : OpportunityDetails)
    (r : MevStrategyResult) (evs : List PipelineEvent)
    (h : execute_arbitrage_strategy env opp = .ok (r, evs)) :
    evs.any isRiskCheck = false := by
  unfold execute_arbitrage_strategy at h
  by_cases h1 : env.sim_is_profitable = false
  · rw [if_pos h1] at h
    cases h
    rfl
  · rw [if_neg h1] at h
    simp only [] at h
    cases hfee : calculate_dynamic_fees env.fee_fetch opp.estimated_profit with
    | error e =>
      rw [hfee] at h
      exact Except.noConfusion h
    | ok fee =>
      rw [hfee] at h
      simp only [] at h
      by_cases h2 : opp.estimated_profit -
          (fee.total_execution_cost +
            (calculate_optimal_tip opp.estimated_profit assess_network_congestion
              assess_competition_level env.tip_account).optimal_tip) < min_arbitrage_profit
      · rw [if_pos h2] at h
        cases h
        rfl
      · rw [if_neg h2] at h
        cases hb : create_arbitrage_bundle env opp.token_a opp.token_b with
        | error e =>
          rw [hb] at h
          exact Except.noConfusion h
        | ok txs =>
          rw [hb] at h
          simp only [] at h
          cases hsub : (submit_via_jito env txs (calculate_optimal_tip opp.estimated_profit
              assess_network_congestion assess_competition_level env.tip_account)).1 with
          | ok sig =>
            rw [hsub] at h
            cases h
            exact submit_via_jito_no_risk _ _ _
          | error e =>
            rw [hsub] at h
            cases h
            exact submit_via_jito_no_risk _ _ _

lemma execute_sandwich_no_risk (env : StrategyEnv) (opp : OpportunityDetails)
    (target : Option Unit) (r : MevStrategyResult) (evs : List PipelineEvent)
    (h : execute_sandwich_strategy env opp target = .ok (r, evs)) :
    evs.any isRiskCheck = false := by
  unfold execute_sandwich_strategy at h
  by_cases h0 : target.isNone = true
  · rw [if_pos h0] at h
    cases h
    rfl
  · rw [if_neg h0] at h
    by_cases h1 : env.sim_is_profitable = false
    · rw [if_pos h1] at h
      cases h
      rfl
    · rw [if_neg h1] at h
      simp only [] at h
      cases hfee : calculate_dynamic_fees env.fee_fetch opp.estimated_profit with
      | error e =>
        rw [hfee] at h
        exact Except.noConfusion h
      | ok fee =>
        rw [hfee] at h
        simp only [] at h
        by_cases h2 : opp.estimated_profit -
            (fee.total_execution_cost +
              (calculate_optimal_tip opp.estimated_profit assess_network_congestion
                assess_competition_level env.tip_account).optimal_tip) < min_sandwich_profit
        · rw [if_pos h2] at h
          cases h
          rfl
        · rw [if_neg h2] at h
          cases hsub : (submit_via_jito env
              (create_sandwich_bundle opp.token_a opp.token_b opp.trade_size)
              (calculate_optimal_tip opp.estimated_profit assess_network_congestion
                assess_competition_level env.tip_account)).1 with
          | ok sig =>
            rw [hsub] at h
            cases h
            exact submit_via_jito_no_risk _ _ _
          | error e =>
            rw [hsub] at h
            cases h
            exact submit_via_jito_no_risk _ _ _

lemma execute_frontrun_no_risk (env : StrategyEnv) (opp : OpportunityDetails)
    (target : Option Unit) (r : MevStrategyResult) (evs : List PipelineEvent)
    (h : execute_frontrun_strategy env opp target = .ok (r, evs)) :
    evs.any isRiskCheck = false := by
  unfold execute_frontrun_strategy at h
  by_cases h1 : env.sim_is_profitable = false
  · rw [if_pos h1] at h
    cases h
    rfl
  · rw [if_neg h1] at h
    simp only [] at h
    cases hfee : calculate_dynamic_fees env.fee_fetch opp.estimated_profit with
    | error e =>
      rw [hfee] at h
      exact Except.noConfusion h
    | ok fee =>
      rw [hfee] at h
      simp only [] at h
      by_cases h2 : opp.estimated_profit -
          (fee.total_execution_cost +
            (calculate_optimal_tip opp.estimated_profit assess_network_congestion
              assess_competition_level env.tip_account).optimal_tip) < min_arbitrage_profit
      · rw [if_pos h2] at h
        cases h
        rfl
      · rw [if_neg h2] at h
        cases hsub : (submit_via_jito env
            [create_frontrun_transaction opp.token_a opp.token_b
              (if target.isSome = true then extract_target_trade_size else opp.trade_size)]
            (calculate_optimal_tip opp.estimated_profit assess_network_congestion
              assess_competition_level env.tip_account)).1 with
        | ok sig =>
          rw [hsub] at h
          cases h
          exact submit_via_jito_no_risk _ _ _
        | error e =>
          rw [hsub] at h
          cases h
          exact submit_via_jito_no_risk _ _ _

lemma execute_generic_no_risk (env : StrategyEnv) (opp : OpportunityDetails)
    (target : Option Unit) (r : MevStrategyResult) (evs : List PipelineEvent)
    (h : execute_generic_strategy env opp target = .ok (r, evs)) :
    evs.any isRiskCheck = false := by
  unfold execute_generic_strategy at h
  by_cases h1 : env.sim_is_profitable = false
  · rw [if_pos h1] at h
    cases h
    rfl
  · rw [if_neg h1] at h
    simp only [] at h
    cases hfee : calculate_dynamic_fees env.fee_fetch opp.estimated_profit with
    | error e =>
      rw [hfee] at h
      exact Except.noConfusion h
    | ok fee =>
      rw [hfee] at h
      simp only [] at h
      cases hsub : (submit_via_jito env [create_generic_transaction opp]
          (calculate_optimal_tip opp.estimated_profit assess_network_congestion
            assess_competition_level env.tip_account)).1 with
      | ok sig =>
        rw [hsub] at h
        cases h
        exact submit_via_jito_no_risk _ _ _
      | error e =>
        rw [hsub] at h
        cases h
        exact submit_via_jito_no_risk _ _ _

lemma execute_strategy_no_risk (env : StrategyEnv) (opp : OpportunityDetails)
    (target : Option Unit) (r : MevStrategyResult) (evs : List PipelineEvent)
    (h : execute_strategy env opp target = .ok (r, evs)) :
    evs.any isRiskCheck = false := by
  unfold execute_strategy at h
  simp only [] at h
  cases hty : opp.opportunity_type with
  | Arbitrage =>
    rw [hty] at h
    cases hbr : execute_arbitrage_strategy env opp with
    | error e => rw [hbr] at h; exact Except.noConfusion h
    | ok pr =>
      rw [hbr] at h
      cases h
      exact execute_arbitrage_no_risk env opp pr.1 pr.2 (by rw [hbr])
  | Sandwich =>
    rw [hty] at h
    cases hbr : execute_sandwich_strategy env opp target with
    | error e => rw [hbr] at h; exact Except.noConfusion h
    | ok pr =>
      rw [hbr] at h
      cases h
      exact execute_sandwich_no_risk env opp target pr.1 pr.2 (by rw [hbr])
  | Frontrun =>
    rw [hty] at h
    cases hbr : execute_frontrun_strategy env opp target with
    | error e => rw [hbr] at h; exact Except.noConfusion h
    | ok pr =>
      rw [hbr] at h
      cases h
      exact execute_frontrun_no_risk env opp target pr.1 pr.2 (by rw [hbr])
  | Liquidation =>
    rw [hty] at h
    cases hbr : execute_generic_strategy env opp target with
    | error e => rw [hbr] at h; exact Except.noConfusion h
    | ok pr =>
      rw [hbr] at h
      cases h
      exact execute_generic_no_risk env opp target pr.1 pr.2 (by rw [hbr])
  | Other =>
    rw [hty] at h
    cases hbr : execute_generic_strategy env opp target with
    | error e => rw [hbr] at h; exact Except.noConfusion h
    | ok pr =>
      rw [hbr] at h
      cases h
      exact execute_generic_no_risk env opp target pr.1 pr.2 (by rw [hbr])

lemma analyze_no_risk (env : MempoolEnv) :
    (analyze_and_execute_opportunity env).2.any isRiskCheck = false := by
  unfold analyze_and_execute_opportunity
  by_cases h0 : env.arch_initialized = false
  · rw [if_pos h0]
    rfl
  · rw [if_neg h0]
    cases htx : env.tx_fetch with
    | error e => rfl
    | ok u =>
      cases hev : env.evaluated with
      | none => rfl
      | some opp =>
        simp only []
        by_cases hf : env.fpr_should_execute = false
        · rw [if_pos hf]
          rfl
        · rw [if_neg hf]
          cases hex : execute_strategy env.strategy_env opp (some u) with
          | error e => rfl
          | ok pr =>
            simp only []
            exact execute_strategy_no_risk env.strategy_env opp (some u) pr.1 pr.2 (by rw [hex])

lemma analyze_testMempoolEnv_submits :
    (analyze_and_execute_opportunity testMempoolEnv).2.any isBundleSubmit = true ∧
    (analyze_and_execute_opportunity testMempoolEnv).1.map (fun r => r.success) = some true := by
  unfold analyze_and_execute_opportunity execute_strategy execute_arbitrage_strategy
    submit_via_jito create_arbitrage_bundle calculate_dynamic_fees calculate_priority_fee
    calculate_dynamic_jito_tip assess_bundle_competition calculate_base_transaction_fee
    estimate_compute_unit_price estimate_compute_units_consumed calculate_optimal_tip
    optimal_tip_amount calculate_base_tip clampQ feesList
  norm_num [testMempoolEnv, testStrategyEnv, testArbOpp, min_def, max_def,
    min_arbitrage_profit, assess_network_congestion, assess_competition_level,
    prepare_bundle_for_submission, isBundleSubmit, List.any]

lemma execute_sandwich_testEnv_submits :
    ((execute_strategy testStrategyEnv testSandwichOpp (some ())).map
      (fun pr => pr.2.any isBundleSubmit)) = Except.ok true := by
  unfold execute_strategy execute_sandwich_strategy
    submit_via_jito calculate_dynamic_fees calculate_priority_fee
    calculate_dynamic_jito_tip assess_bundle_competition calculate_base_transaction_fee
    estimate_compute_unit_price estimate_compute_units_consumed calculate_optimal_tip
    optimal_tip_amount calculate_base_tip clampQ feesList
  norm_num [testStrategyEnv, testSandwichOpp, testArbOpp, min_def, max_def,
    min_sandwich_profit, assess_network_congestion, assess_competition_level,
    prepare_bundle_for_submission, create_sandwich_bundle, isBundleSubmit, List.any,
    Except.map]

lemma testDisabledState_denies_sandwich :
    (should_allow_strategy testDisabledState 100 .Sandwich 0.02 0.01).2 =
      Except.error (.strategyDisabled "Sandwich") := by
  have hop := testDisabledState_allows_op 100
  unfold should_allow_strategy
  rw [hop]
  rfl

/-- C1: at a concrete pipeline environment the detection-to-execution pipeline
submits a transaction bundle (and records a successful strategy result), while
no run of `analyze_and_execute_opportunity` — for any environment — contains a
RiskManager admission check: the pipeline never calls
`should_allow_strategy` / `should_allow_operation`, so no admission precedes
submission and a denial cannot prevent it. -/
theorem bundle_submitted_without_risk_admission :
    (analyze_and_execute_opportunity testMempoolEnv).2.any isBundleSubmit = true ∧
    (analyze_and_execute_opportunity testMempoolEnv).1.map (fun r => r.success) = some true ∧
    (∀ env : MempoolEnv, (analyze_and_execute_opportunity env).2.any isRiskCheck = false) :=
  ⟨analyze_testMempoolEnv_submits.1, analyze_testMempoolEnv_submits.2, analyze_no_risk⟩

/-- C4: the Sandwich strategy has reached `max_strategy_failures = 3` and its
disablement window is still open (now = 100 < 3612), so
`should_allow_strategy` would deny it — yet `execute_strategy` still executes
a Sandwich opportunity and submits its bundle, performing no risk check at
all: the executor never consults the RiskManager. -/
theorem disabled_strategy_still_executes :
    lookupTracker testDisabledState.strategy_failures "Sandwich" =
      some { strategy_type := .Sandwich, failure_count := 3, last_failure_time := some 12,
             is_disabled := true, disabled_until := some 3612 } ∧
    testDisabledState.limits.max_strategy_failures = 3 ∧
    (should_allow_strategy testDisabledState 100 .Sandwich 0.02 0.01).2 =
      Except.error (RiskError.strategyDisabled "Sandwich") ∧
    ((execute_strategy testStrategyEnv testSandwichOpp (some ())).map
      (fun pr => pr.2.any isBundleSubmit)) = Except.ok true ∧
    ((execute_strategy testStrategyEnv testSandwichOpp (some ())).map
      (fun pr => pr.2.any isRiskCheck)) = Except.ok false := by
  refine ⟨rfl, rfl, testDisabledState_denies_sandwich, execute_sandwich_testEnv_submits, ?_⟩
  cases hex : execute_strategy testStrategyEnv testSandwichOpp (some ()) with
  | error e =>
    have hok := execute_sandwich_testEnv_submits
    rw [hex] at hok
    exact absurd hok (by simp [Except.map])
  | ok pr =>
    have := execute_strategy_no_risk testStrategyEnv testSandwichOpp (some ()) pr.1 pr.2
      (by rw [hex])
    simp [Except.map, this]

end MevBot
